import Mathlib

/-!
Verification of the data-loading/caching contract of the `useGlobalData`
hook (src/frontend/src/hooks/useGlobalData.js) of the personal-website
repository.

The hook is shallowly embedded as follows.

* JavaScript runtime values that can flow through the hook (the cached
  aggregate, section values) are modelled by `JSValue`, with JS truthiness
  (`truthy`), property lookup (`getField`, modelling `data?.[name]`), and
  `Object.keys` (`jsKeys`).  Floating-point numbers are modelled as
  integers (`NaN` does not arise in the claims under study); index
  properties of arrays and strings are not modelled by `getField` because
  no section name is numeric.
* The React state of the provider (`globalData`, `loading`, `error`,
  `lastFetch`, `isInitialLoad`, `showProgress`) is the record
  `CacheState`; `setX` calls become functional record updates, applied in
  source order.  Time (`Date.now()`) is a `Nat` of epoch milliseconds
  supplied as a parameter at each step.
* The external collaborators (image preloader, data service, performance
  tracker) are fire-and-forget from the point of view of the hook, so a fetch
  sequence is modelled as a pure function from the prior state and the
  data service outcome (`FetchResult`) to the next state together with
  the ordered trace of external calls (`ExtCall`) the sequence performs.
  `logger` calls produce no observable effect and are not traced;
  `performance.now()` timing feeds only the tracked duration, which the
  trace does not record (only the label is observable in the claims).
* The `useEffect` body — staleness evaluation followed by either the
  fetch sequence or the cached-data branch — is `evaluate`.  Sequences of
  evaluations, `refetch()` calls, and progress-indicator completions are
  `List Step`, executed by `run` from `initState` (the state at provider
  mount).
-/

/-- A JavaScript runtime value, as far as the hook observes it. -/
inductive JSValue where
  | null
  | undefined
  | bool (b : Bool)
  | num (n : Int)
  | str (s : String)
  | obj (fields : List (String × JSValue))
  | arr (elems : List JSValue)

/-- JS truthiness: `null`, `undefined`, `false`, `0`, and `""` are falsy;
objects and arrays are always truthy. -/
def truthy : JSValue → Bool
  | .null => false
  | .undefined => false
  | .bool b => b
  | .num n => n != 0
  | .str s => s != ""
  | .obj _ => true
  | .arr _ => true

/-- First-match lookup in the field list of an object. -/
def lookupField : List (String × JSValue) → String → Option JSValue
  | [], _ => none
  | (k, v) :: rest, n => if k = n then some v else lookupField rest n

/-- Property access `v?.[name]`: on objects, the value of the field or
`undefined` when absent; `undefined` on every non-object (optional
chaining short-circuits `null`/`undefined`; no section name is an array
or string index). -/
def getField : JSValue → String → JSValue
  | .obj fields, name => (lookupField fields name).getD .undefined
  | _, _ => .undefined

/-- Model of `Object.keys`: field names of an object, index strings of an
array or string, `[]` otherwise. -/
def jsKeys : JSValue → List String
  | .obj fields => fields.map Prod.fst
  | .arr elems => (List.range elems.length).map toString
  | .str s => (List.range s.length).map toString
  | _ => []

/-- The JS `a || b` operator restricted to values. -/
def jsOr (a b : JSValue) : JSValue := if truthy a then a else b

/-- The React state of the provider (useGlobalData.js lines 13-18). -/
structure CacheState where
  globalData : JSValue
  loading : Bool
  error : Option String
  lastFetch : Nat
  isInitialLoad : Bool
  showProgress : Bool

/-- The state at provider mount (`useState` initial values, lines 13-18). -/
def initState : CacheState :=
  { globalData := .null
    loading := true
    error := none
    lastFetch := 0
    isInitialLoad := true
    showProgress := true }

/-- Cache duration: 30 minutes (line 21). -/
def CACHE_DURATION : Nat := 30 * 60 * 1000

/-- The staleness evaluation (line 72):
`!globalData || (Date.now() - lastFetch) > CACHE_DURATION`. -/
def shouldFetch (st : CacheState) (now : Nat) : Bool :=
  !truthy st.globalData || decide ((now : Int) - (st.lastFetch : Int) > (CACHE_DURATION : Int))

/-- Outcome of the call to `portfolioService.getPortfolioDataOptimized`
with locale en: the
awaited promise either resolves with the aggregate or rejects with an
error whose message is a string. -/
inductive FetchResult where
  | success (d : JSValue)
  | failure (msg : String)

/-- An observable call to an external collaborator, in the order the fetch
sequence performs them.  `dataFetch` marks the point at which the data
service call is issued and awaited. -/
inductive ExtCall where
  | preloadCritical
  | dataFetch (locale : String)
  | trackDataFetch (label : String)
  | preloadDataImages
  | preloadSectionImages (sectionName : String)
deriving DecidableEq

/-- The `Object.keys(data).forEach(...)` loop of lines 53-57: one
`preloadSectionImages` call per key, skipping `home` and `contact`. -/
def sectionPreloadCalls (keys : List String) : List ExtCall :=
  keys.foldl
    (fun acc sec =>
      if sec != "home" && sec != "contact" then
        acc ++ [ExtCall.preloadSectionImages sec]
      else acc)
    []

/-- The fetch sequence `fetchGlobalData` (lines 24-69), as a function of
the prior state, the data service outcome, and the completion time
(`Date.now()` at line 45).  Returns the post-sequence state and the trace
of external calls. -/
def fetchGlobalData (st : CacheState) (res : FetchResult) (now : Nat) :
    CacheState × List ExtCall :=
  -- try block: setLoading(true); setError(null); preloadCriticalImages();
  -- then await the data service.
  let st1 := { st with loading := true, error := none }
  match res with
  | .success d =>
      -- trackDataFetch, setGlobalData(data), setLastFetch(Date.now())
      let st2 := { st1 with globalData := d, lastFetch := now }
      -- if (data) { preloadDataImages; forEach section preloads }
      let preloads :=
        if truthy d then
          ExtCall.preloadDataImages :: sectionPreloadCalls (jsKeys d)
        else []
      -- setIsInitialLoad(false), then finally setLoading(false)
      let st3 := { st2 with isInitialLoad := false, loading := false }
      (st3,
        ExtCall.preloadCritical :: ExtCall.dataFetch "en" ::
          ExtCall.trackDataFetch "global_portfolio_data" :: preloads)
  | .failure msg =>
      -- catch: setError(err.message); setIsInitialLoad(false);
      -- finally setLoading(false)
      let st2 := { st1 with error := some msg, isInitialLoad := false, loading := false }
      (st2, [ExtCall.preloadCritical, ExtCall.dataFetch "en"])

/-- The `useEffect` body (lines 71-80): evaluate staleness; if stale run
the fetch sequence, otherwise `setLoading(false); setIsInitialLoad(false)`
with no external call. -/
def evaluate (st : CacheState) (now : Nat) (res : FetchResult) :
    CacheState × List ExtCall :=
  if shouldFetch st now then fetchGlobalData st res now
  else ({ st with loading := false, isInitialLoad := false }, [])

/-- The `refetch` closure (lines 93-95): reset `lastFetch` to 0. -/
def refetch (st : CacheState) : CacheState :=
  { st with lastFetch := 0 }

/-- The `handleProgressComplete` callback (lines 83-85). -/
def handleProgressComplete (st : CacheState) : CacheState :=
  { st with showProgress := false }

/-- One externally triggered step of the provider: an effect evaluation
(with the time and data-service outcome it observes), a consumer calling
`refetch()`, or the progress indicator completing. -/
inductive Step where
  | eval (now : Nat) (res : FetchResult)
  | doRefetch
  | progressDone

/-- Whether a step is an effect evaluation. -/
def Step.isEval : Step → Bool
  | .eval _ _ => true
  | _ => false

/-- Apply one step to the provider state (traces are examined per step
via `evaluate`, not accumulated here). -/
def stepF (st : CacheState) : Step → CacheState
  | .eval now res => (evaluate st now res).1
  | .doRefetch => refetch st
  | .progressDone => handleProgressComplete st

/-- Run a sequence of steps from a state. -/
def run (st : CacheState) : List Step → CacheState
  | [] => st
  | s :: rest => run (stepF st s) rest

/-- The context value the provider exposes (lines 87-96). -/
structure ContextValue where
  data : JSValue
  loading : Bool
  error : Option String
  lastFetch : Nat
  isInitialLoad : Bool
  refetch : CacheState → CacheState

/-- The `value` record built by the provider (lines 87-96). -/
def providerValue (st : CacheState) : ContextValue :=
  { data := st.globalData
    loading := st.loading
    error := st.error
    lastFetch := st.lastFetch
    isInitialLoad := st.isInitialLoad
    refetch := fun s => { s with lastFetch := 0 } }

/-- The `useGlobalData` hook (lines 111-117): read the context; throw if
no provider is mounted above the caller (modelled as `Except`). -/
def useGlobalData (ctx : Option ContextValue) : Except String ContextValue :=
  match ctx with
  | none => .error "useGlobalData must be used within a GlobalDataProvider"
  | some c => .ok c

/-- What `useSectionData` returns (lines 123-127). -/
structure SectionResult where
  data : JSValue
  loading : Bool
  error : Option String

/-- The `useSectionData` hook (lines 120-128), given the context value it
reads through `useGlobalData()`: `data?.[sectionName] || null` plus
pass-through of `loading` and `error`.  A total function: it never
throws, fetches, or mutates. -/
def useSectionData (ctx : ContextValue) (sectionName : String) : SectionResult :=
  { data := jsOr (getField ctx.data sectionName) .null
    loading := ctx.loading
    error := ctx.error }

/-! ### Helper lemmas (shared across claims) -/

/-- Accumulator form of the section-preload loop. -/
theorem sectionPreloadCalls_go (ks : List String) (acc : List ExtCall) :
    ks.foldl
      (fun acc sec =>
        if sec != "home" && sec != "contact" then
          acc ++ [ExtCall.preloadSectionImages sec]
        else acc)
      acc
      = acc ++ (ks.filter (fun sec => sec != "home" && sec != "contact")).map
          ExtCall.preloadSectionImages := by
  induction ks generalizing acc with
  | nil => simp
  | cons k rest ih =>
    rw [List.foldl_cons, List.filter_cons]
    by_cases hk : (k != "home" && k != "contact") = true
    · rw [if_pos hk, if_pos hk, ih, List.map_cons]
      simp
    · rw [if_neg hk, if_neg hk, ih]

/-- The section-preload loop emits exactly one call per key that is
neither `home` nor `contact`, in key order. -/
theorem sectionPreloadCalls_eq (keys : List String) :
    sectionPreloadCalls keys
      = (keys.filter (fun sec => sec != "home" && sec != "contact")).map
          ExtCall.preloadSectionImages := by
  rw [sectionPreloadCalls, sectionPreloadCalls_go, List.nil_append]

/-- Every fetch sequence issues the data-service call. -/
theorem dataFetch_mem_fetchGlobalData (st : CacheState) (res : FetchResult) (now : Nat) :
    ExtCall.dataFetch "en" ∈ (fetchGlobalData st res now).2 := by
  cases res <;> simp [fetchGlobalData]

/-- Characterisation of the staleness formula. -/
theorem shouldFetch_iff (st : CacheState) (now : Nat) :
    shouldFetch st now = true ↔
      truthy st.globalData = false
        ∨ (now : Int) - (st.lastFetch : Int) > (CACHE_DURATION : Int) := by
  simp [shouldFetch]

/-- Every effect evaluation leaves `isInitialLoad` false, on all of its
paths (fetch success, fetch failure, cached-data branch). -/
theorem evaluate_isInitialLoad (st : CacheState) (now : Nat) (res : FetchResult) :
    (evaluate st now res).1.isInitialLoad = false := by
  unfold evaluate
  split
  · cases res <;> rfl
  · rfl

/-- No step ever sets `isInitialLoad` back to true. -/
theorem stepF_isInitialLoad_mono (st : CacheState) (s : Step)
    (h : st.isInitialLoad = false) : (stepF st s).isInitialLoad = false := by
  cases s with
  | eval now res => exact evaluate_isInitialLoad st now res
  | doRefetch => exact h
  | progressDone => exact h

/-- Once `isInitialLoad` is false it stays false along any run. -/
theorem run_isInitialLoad_mono (steps : List Step) (st : CacheState)
    (h : st.isInitialLoad = false) : (run st steps).isInitialLoad = false := by
  induction steps generalizing st with
  | nil => exact h
  | cons s rest ih => exact ih _ (stepF_isInitialLoad_mono st s h)

/-- A run containing no evaluation leaves `globalData` and
`isInitialLoad` at their mount values. -/
theorem run_no_eval (pre : List Step) (st : CacheState)
    (h : ∀ s ∈ pre, s.isEval = false)
    (h1 : st.globalData = JSValue.null) (h2 : st.isInitialLoad = true) :
    (run st pre).globalData = JSValue.null ∧ (run st pre).isInitialLoad = true := by
  induction pre generalizing st with
  | nil => exact ⟨h1, h2⟩
  | cons s rest ih =>
    have hs : s.isEval = false := h s (List.mem_cons_self _ _)
    have hrest : ∀ x ∈ rest, x.isEval = false := fun x hx => h x (List.mem_cons_of_mem _ hx)
    cases s with
    | eval now res => simp [Step.isEval] at hs
    | doRefetch => exact ih (stepF st .doRefetch) hrest h1 h2
    | progressDone => exact ih (stepF st .progressDone) hrest h1 h2

/-- Runs compose over list append. -/
theorem run_append (st : CacheState) (a b : List Step) :
    run st (a ++ b) = run (run st a) b := by
  induction a generalizing st with
  | nil => rfl
  | cons s rest ih => exact ih (stepF st s)

/-- Reachability invariant: truthy cached data implies the initial load
has completed. -/
theorem reachable_truthy_initialLoad (steps : List Step) :
    truthy (run initState steps).globalData = true →
      (run initState steps).isInitialLoad = false := by
  suffices h : ∀ (ss : List Step) (st : CacheState),
      (truthy st.globalData = true → st.isInitialLoad = false) →
      truthy (run st ss).globalData = true → (run st ss).isInitialLoad = false by
    refine h steps initState ?_
    intro hcontra
    simp [initState, truthy] at hcontra
  intro ss
  induction ss with
  | nil => intro st hst; exact hst
  | cons s rest ih =>
    intro st hst
    refine ih (stepF st s) ?_
    cases s with
    | eval now res => intro _; exact evaluate_isInitialLoad st now res
    | doRefetch => exact hst
    | progressDone => exact hst

/-- Updating `isInitialLoad` to false is the identity when it is already
false. -/
theorem set_isInitialLoad_self (st : CacheState) (h : st.isInitialLoad = false) :
    ({ st with loading := false, isInitialLoad := false } : CacheState)
      = { st with loading := false } := by
  cases st
  simp_all

/-! ### Claim theorems -/

/-- C4: after a fetch sequence that succeeds with aggregate `d` at
completion time `t`, the cached data equals `d`, `lastFetch` equals `t`,
and `error` is cleared. -/
theorem fetch_success_updates (st : CacheState) (d : JSValue) (t : Nat) :
    (fetchGlobalData st (.success d) t).1.globalData = d
    ∧ (fetchGlobalData st (.success d) t).1.lastFetch = t
    ∧ (fetchGlobalData st (.success d) t).1.error = none :=
  ⟨rfl, rfl, rfl⟩

/-- C3: after a fetch sequence that fails with message `msg`, the error
field holds `msg`, `globalData` and `lastFetch` are unchanged from the
prior state, and `loading` is false; moreover `loading` is false after
every fetch sequence, success or failure. -/
theorem fetch_failure_semantics (st : CacheState) (msg : String) (now : Nat) :
    (fetchGlobalData st (.failure msg) now).1.error = some msg
    ∧ (fetchGlobalData st (.failure msg) now).1.globalData = st.globalData
    ∧ (fetchGlobalData st (.failure msg) now).1.lastFetch = st.lastFetch
    ∧ (fetchGlobalData st (.failure msg) now).1.loading = false
    ∧ ∀ res : FetchResult, (fetchGlobalData st res now).1.loading = false := by
  refine ⟨rfl, rfl, rfl, rfl, ?_⟩
  intro res
  cases res <;> rfl

/-- C7: within one fetch sequence the external calls happen in order:
the critical-image preload strictly before the data-service call
resolves; then, only on success with truthy data, the data-images preload
followed by one section preload per top-level key other than `home` and
`contact`, in key order; on failure no call after the data-service call. -/
theorem fetch_sequence_order (st : CacheState) (now : Nat) :
    (∀ d, (fetchGlobalData st (.success d) now).2
        = ExtCall.preloadCritical :: ExtCall.dataFetch "en" ::
            ExtCall.trackDataFetch "global_portfolio_data" ::
            (if truthy d then
               ExtCall.preloadDataImages ::
                 ((jsKeys d).filter (fun sec => sec != "home" && sec != "contact")).map
                   ExtCall.preloadSectionImages
             else []))
    ∧ (∀ msg, (fetchGlobalData st (.failure msg) now).2
        = [ExtCall.preloadCritical, ExtCall.dataFetch "en"]) := by
  refine ⟨?_, fun msg => rfl⟩
  intro d
  by_cases hd : truthy d = true
  · simp [fetchGlobalData, hd, sectionPreloadCalls_eq]
  · simp only [Bool.not_eq_true] at hd
    simp [fetchGlobalData, hd]

/-- C8: the consumer lookup returns the provider record
`{data, loading, error, lastFetch, isInitialLoad, refetch}` when a
provider is mounted, and raises an error when none is. -/
theorem useGlobalData_lookup (st : CacheState) :
    useGlobalData (some (providerValue st)) = Except.ok (providerValue st)
    ∧ (providerValue st).data = st.globalData
    ∧ (providerValue st).loading = st.loading
    ∧ (providerValue st).error = st.error
    ∧ (providerValue st).lastFetch = st.lastFetch
    ∧ (providerValue st).isInitialLoad = st.isInitialLoad
    ∧ (∀ s, (providerValue st).refetch s = refetch s)
    ∧ useGlobalData none
        = Except.error "useGlobalData must be used within a GlobalDataProvider" :=
  ⟨rfl, rfl, rfl, rfl, rfl, rfl, fun _ => rfl, rfl⟩

/-- C1: the staleness evaluation uses `CACHE_DURATION = 30*60*1000` ms and
triggers a fetch sequence (issues the data-service call) if and only if
the cached data is absent (falsy) or its age exceeds the cache duration;
when data is present and fresh, re-running the evaluation performs no
external call at all. -/
theorem staleness_triggers_fetch (st : CacheState) (now : Nat) (res : FetchResult) :
    CACHE_DURATION = 30 * 60 * 1000
    ∧ (ExtCall.dataFetch "en" ∈ (evaluate st now res).2
        ↔ (truthy st.globalData = false
            ∨ (now : Int) - (st.lastFetch : Int) > (CACHE_DURATION : Int)))
    ∧ (truthy st.globalData = true →
        (now : Int) - (st.lastFetch : Int) ≤ (CACHE_DURATION : Int) →
        (evaluate st now res).2 = []) := by
  refine ⟨rfl, ?_, ?_⟩
  · unfold evaluate
    by_cases h : shouldFetch st now = true
    · rw [if_pos h]
      rw [shouldFetch_iff] at h
      exact ⟨fun _ => h, fun _ => dataFetch_mem_fetchGlobalData st res now⟩
    · rw [if_neg h]
      constructor
      · intro hmem
        exact absurd hmem (by simp)
      · intro hcond
        exact absurd ((shouldFetch_iff st now).mpr hcond) h
  · intro htruthy hfresh
    have hns : ¬ shouldFetch st now = true := by
      rw [shouldFetch_iff]
      rintro (h1 | h2)
      · rw [htruthy] at h1
        exact Bool.noConfusion h1
      · exact absurd h2 (not_lt.mpr hfresh)
    unfold evaluate
    rw [if_neg hns] 

/-- C2: along every run from the mount state, `isInitialLoad` starts
true, stays true while no evaluation has run, and the first evaluation —
which always finds the cache stale and so runs a fetch sequence, whatever
its outcome — leaves it false; it remains false under every continuation. -/
theorem initialLoad_transitions_once (pre post : List Step) (now : Nat) (res : FetchResult)
    (hpre : ∀ s ∈ pre, s.isEval = false) :
    initState.isInitialLoad = true
    ∧ (run initState pre).isInitialLoad = true
    ∧ shouldFetch (run initState pre) now = true
    ∧ (run initState (pre ++ Step.eval now res :: post)).isInitialLoad = false := by
  obtain ⟨hg, hi⟩ := run_no_eval pre initState hpre rfl rfl
  refine ⟨rfl, hi, ?_, ?_⟩
  · rw [shouldFetch_iff]
    left
    rw [hg]
    rfl
  · rw [run_append]
    exact run_isInitialLoad_mono post _ (evaluate_isInitialLoad _ now res)

/-- C2 witness: a concrete run (a refetch, then a failing first fetch,
then a progress completion) ends with `isInitialLoad` false. -/
theorem initialLoad_transitions_once_witness :
    (run initState ([Step.doRefetch] ++ Step.eval 5 (FetchResult.failure "boom")
        :: [Step.progressDone])).isInitialLoad = false :=
  (initialLoad_transitions_once [Step.doRefetch] [Step.progressDone] 5
      (FetchResult.failure "boom")
      (by intro s hs; rw [List.mem_singleton] at hs; rw [hs]; rfl)).2.2.2

/-- C1 witness: with data present and fetched 1 second before the
evaluation, re-evaluating performs no external call. -/
theorem staleness_triggers_fetch_witness :
    (evaluate
        { globalData := .obj [("home", .str "h")], loading := false, error := none,
          lastFetch := 1000, isInitialLoad := false, showProgress := false }
        2000 (FetchResult.failure "e")).2 = [] :=
  (staleness_triggers_fetch _ 2000 (FetchResult.failure "e")).2.2 rfl (by decide)

/-- C5: `refetch()` resets `lastFetch` to 0 and changes no other field;
provided the wall clock is past the cache duration (true of every real
epoch-milliseconds clock), the next staleness evaluation then triggers a
fetch sequence, whatever the cached data. -/
theorem refetch_forces_fetch (st : CacheState) (now : Nat) (res : FetchResult)
    (hclock : (CACHE_DURATION : Int) < (now : Int)) :
    (refetch st).lastFetch = 0
    ∧ (refetch st).globalData = st.globalData
    ∧ (refetch st).loading = st.loading
    ∧ (refetch st).error = st.error
    ∧ (refetch st).isInitialLoad = st.isInitialLoad
    ∧ (refetch st).showProgress = st.showProgress
    ∧ shouldFetch (refetch st) now = true
    ∧ ExtCall.dataFetch "en" ∈ (evaluate (refetch st) now res).2 := by
  have hsf : shouldFetch (refetch st) now = true := by
    rw [shouldFetch_iff]
    right
    simpa [refetch] using hclock
  refine ⟨rfl, rfl, rfl, rfl, rfl, rfl, hsf, ?_⟩
  unfold evaluate
  rw [if_pos hsf]
  exact dataFetch_mem_fetchGlobalData _ res now

/-- C5 witness: data fetched 1 second ago, clock at 10^12 ms; after
`refetch()` the evaluation issues the data-service call. -/
theorem refetch_forces_fetch_witness :
    ExtCall.dataFetch "en" ∈
      (evaluate
        (refetch
          { globalData := .obj [("home", .str "h")], loading := false, error := none,
            lastFetch := 999999999000, isInitialLoad := false, showProgress := false })
        1000000000000 (FetchResult.success (.obj []))).2 :=
  (refetch_forces_fetch _ 1000000000000 (FetchResult.success (.obj []))
      (by decide)).2.2.2.2.2.2.2

/-- C10: in every state reachable by a run from the mount state, truthy
cached data implies `isInitialLoad` is already false; hence when the
staleness evaluation takes the non-stale branch, its result is exactly
the prior state with `loading := false` — the unconditional
`setIsInitialLoad(false)` of that branch never performs the true-to-false
transition itself. -/
theorem nonStale_branch_no_transition (steps : List Step) (now : Nat) (res : FetchResult) :
    (truthy (run initState steps).globalData = true →
      (run initState steps).isInitialLoad = false)
    ∧ (shouldFetch (run initState steps) now = false →
        evaluate (run initState steps) now res
          = ({ run initState steps with loading := false }, [])) := by
  refine ⟨reachable_truthy_initialLoad steps, ?_⟩
  intro hns
  have htruthy : truthy (run initState steps).globalData = true := by
    by_contra hcontra
    rw [Bool.not_eq_true] at hcontra
    have : shouldFetch (run initState steps) now = true :=
      (shouldFetch_iff _ now).mpr (Or.inl hcontra)
    rw [this] at hns
    exact Bool.noConfusion hns
  have hinit : (run initState steps).isInitialLoad = false :=
    reachable_truthy_initialLoad steps htruthy
  unfold evaluate
  rw [if_neg (by rw [hns]; exact Bool.noConfusion)]
  rw [set_isInitialLoad_self _ hinit]

/-- C10 witness: after one successful fetch at time 1000, evaluating
again at time 2000 takes the non-stale branch and only clears `loading`. -/
theorem nonStale_branch_no_transition_witness :
    evaluate (run initState [Step.eval 1000 (FetchResult.success (.obj [("home", .str "h")]))])
        2000 (FetchResult.failure "e")
      = ({ run initState [Step.eval 1000 (FetchResult.success (.obj [("home", .str "h")]))] with
            loading := false }, []) :=
  (nonStale_branch_no_transition [Step.eval 1000 (FetchResult.success (.obj [("home", .str "h")]))]
      2000 (FetchResult.failure "e")).2 (by decide)

/-- C6 counterexample: a successful fetch can cache an aggregate whose
`projects` field is present but holds the empty string; the section
accessor then returns null, not that present value, refuting the claim
that a present field value is always returned. -/
theorem sectionAccessor_counterexample :
    lookupField [("projects", JSValue.str "")] "projects" = some (JSValue.str "")
    ∧ (useSectionData
        (providerValue
          (fetchGlobalData initState
            (FetchResult.success (.obj [("projects", JSValue.str "")])) 1000).1)
        "projects").data = JSValue.null
    ∧ JSValue.null ≠ JSValue.str "" :=
  ⟨rfl, rfl, fun h => JSValue.noConfusion h⟩

/-- C6 (amended): for every context state and section name, the accessor
passes `loading` and `error` through unchanged and returns as `data` the
value of the named field when the aggregate is loaded, the field is
present, and its value is truthy; it returns null (absent) when the
aggregate is not yet loaded, the field is missing, or the field value is
falsy.  Being a total function of the context, it never throws for an
unknown section name and performs no fetching or state mutation. -/
theorem sectionAccessor_amended (ctx : ContextValue) (s : String)
    (fs : List (String × JSValue)) (v : JSValue) :
    (useSectionData ctx s).loading = ctx.loading
    ∧ (useSectionData ctx s).error = ctx.error
    ∧ (ctx.data = JSValue.null → (useSectionData ctx s).data = JSValue.null)
    ∧ (ctx.data = JSValue.obj fs → lookupField fs s = none →
        (useSectionData ctx s).data = JSValue.null)
    ∧ (ctx.data = JSValue.obj fs → lookupField fs s = some v → truthy v = true →
        (useSectionData ctx s).data = v)
    ∧ (ctx.data = JSValue.obj fs → lookupField fs s = some v → truthy v = false →
        (useSectionData ctx s).data = JSValue.null) := by
  refine ⟨rfl, rfl, ?_, ?_, ?_, ?_⟩
  · intro hd
    simp [useSectionData, jsOr, getField, hd, truthy]
  · intro hd hlook
    simp [useSectionData, jsOr, getField, hd, hlook, truthy]
  · intro hd hlook htruthy
    simp [useSectionData, jsOr, getField, hd, hlook, htruthy]
  · intro hd hlook htruthy
    simp [useSectionData, jsOr, getField, hd, hlook, htruthy]

/-- C6 witness: before any fetch the accessor yields null data with
`loading` passed through, and a loaded truthy `projects` field is
returned as-is. -/
theorem sectionAccessor_amended_witness :
    (useSectionData (providerValue initState) "projects").data = JSValue.null
    ∧ (useSectionData
        { data := .obj [("projects", JSValue.str "p")], loading := false, error := none,
          lastFetch := 0, isInitialLoad := false, refetch := id } "projects").data
      = JSValue.str "p" :=
  ⟨(sectionAccessor_amended (providerValue initState) "projects" [] JSValue.null).2.2.1 rfl,
   (sectionAccessor_amended
      { data := .obj [("projects", JSValue.str "p")], loading := false, error := none,
        lastFetch := 0, isInitialLoad := false, refetch := id } "projects"
      [("projects", JSValue.str "p")] (JSValue.str "p")).2.2.2.2.1 rfl rfl rfl⟩

/-- C9: the section accessor collapses every falsy-but-present field
value (empty string, 0, false, null, undefined) to null, because the
projection is the truthiness fallback `data?.[sectionName] || null`, not
a presence test. -/
theorem sectionAccessor_falsy_collapse (ctx : ContextValue) (s : String)
    (fs : List (String × JSValue)) (v : JSValue)
    (hdata : ctx.data = JSValue.obj fs) (hfield : lookupField fs s = some v)
    (hfalsy : truthy v = false) :
    (useSectionData ctx s).data = JSValue.null := by
  simp [useSectionData, jsOr, getField, hdata, hfield, hfalsy]

/-- C9 witness: a loaded `awards` field holding 0 is reported as null. -/
theorem sectionAccessor_falsy_collapse_witness :
    (useSectionData
        { data := .obj [("awards", JSValue.num 0)], loading := true, error := none,
          lastFetch := 0, isInitialLoad := true, refetch := id } "awards").data
      = JSValue.null :=
  sectionAccessor_falsy_collapse _ "awards" [("awards", JSValue.num 0)] (JSValue.num 0)
    rfl rfl rfl
